import Mathlib

/-!
Verification development for the chart-rendering core of the
Conversation-Analytics-Chatbot front end.

The repository contains two near-identical copies of the chart renderer:

* `ChartDisplay` in `frontend/src/App.js` (embedded below in namespace `App`);
* `ChartDisplay` in `frontend/src/components/chat/ResponseInterface.jsx`
  (embedded below in namespace `RI`).

Both receive a chart payload `{type, data: {labels, datasets}, options}` and
build a tree of drawing instructions for bar, pie, doughnut and line charts.

Modelling conventions:

* JavaScript numbers are modelled by `JSNum`: exact rationals extended with
  `NaN` and signed infinities, with the IEEE-754 special-value rules for the
  arithmetic the renderers perform (`x/0`, `Math.max()` over an empty spread,
  `0 * Infinity`, comparisons against `NaN`, the falsiness of `0` and `NaN`
  in `||`).  Rounding of finite values is exact rather than double-precision;
  none of the claims distinguishes exact from floating-point arithmetic.
* Series entries are numbers (`ℚ`), as in the spec's data model (§3: `series`
  is a sequence of numeric values).  The renderers' `typeof val === 'number'`
  filters are therefore identically true and are noted where they occur.
* Array indexing `data[index]` yields `Option ℚ` (`none` = `undefined`);
  arithmetic on `undefined` yields `NaN` (`jsOfOption`).  Calling a method
  such as `.toLocaleString()` on `undefined` throws a `TypeError`; the one
  renderer that can do this (the pie/doughnut legend of `App.js`) is embedded
  in the `Except JsError` monad.
* Text nodes produced by `value.toLocaleString()` / `percentage.toFixed(1)`
  store the numeric value being formatted rather than the locale-dependent
  string; the instruction trees keep angles, which determine the SVG path
  coordinates of the source through fixed trigonometric maps.
* The footer stamps `new Date().toLocaleTimeString()`; the current time
  string is an explicit `now : String` parameter of the embedding.
-/

/-- Result of a JavaScript double-precision value in this development:
`NaN`, `Infinity`, `-Infinity`, or an exact rational. -/
inductive JSNum where
  | nan : JSNum
  | inf : JSNum
  | ninf : JSNum
  | num : ℚ → JSNum
deriving DecidableEq, Repr

/-- Unary minus on `JSNum`. -/
def jsNeg : JSNum → JSNum
  | .nan => .nan
  | .inf => .ninf
  | .ninf => .inf
  | .num q => .num (-q)

/-- Addition with IEEE special-value rules (`Infinity + -Infinity = NaN`). -/
def jsAdd : JSNum → JSNum → JSNum
  | .nan, _ => .nan
  | _, .nan => .nan
  | .inf, .ninf => .nan
  | .ninf, .inf => .nan
  | .inf, _ => .inf
  | _, .inf => .inf
  | .ninf, _ => .ninf
  | _, .ninf => .ninf
  | .num a, .num b => .num (a + b)

/-- Subtraction, defined as addition of the negation. -/
def jsSub (a b : JSNum) : JSNum := jsAdd a (jsNeg b)

/-- Multiplication with IEEE special-value rules (`0 * Infinity = NaN`). -/
def jsMul : JSNum → JSNum → JSNum
  | .nan, _ => .nan
  | _, .nan => .nan
  | .inf, .inf => .inf
  | .inf, .ninf => .ninf
  | .ninf, .inf => .ninf
  | .ninf, .ninf => .inf
  | .inf, .num q => if q = 0 then .nan else if 0 < q then .inf else .ninf
  | .num q, .inf => if q = 0 then .nan else if 0 < q then .inf else .ninf
  | .ninf, .num q => if q = 0 then .nan else if 0 < q then .ninf else .inf
  | .num q, .ninf => if q = 0 then .nan else if 0 < q then .ninf else .inf
  | .num a, .num b => .num (a * b)

/-- Division with IEEE special-value rules: `x/0` is `NaN` for `x = 0` and a
signed infinity otherwise; `Infinity/Infinity = NaN`; `x/Infinity = 0`.
The sign of zero is not modelled (the renderers never divide by `-0`). -/
def jsDiv : JSNum → JSNum → JSNum
  | .nan, _ => .nan
  | _, .nan => .nan
  | .inf, .inf => .nan
  | .inf, .ninf => .nan
  | .ninf, .inf => .nan
  | .ninf, .ninf => .nan
  | .inf, .num q => if 0 ≤ q then .inf else .ninf
  | .ninf, .num q => if 0 ≤ q then .ninf else .inf
  | .num _, .inf => .num 0
  | .num _, .ninf => .num 0
  | .num a, .num b =>
      if b = 0 then (if a = 0 then .nan else if 0 < a then .inf else .ninf)
      else .num (a / b)

/-- Strict comparison; any comparison against `NaN` is false. -/
def jsLt : JSNum → JSNum → Bool
  | .nan, _ => false
  | _, .nan => false
  | .ninf, .ninf => false
  | .ninf, _ => true
  | _, .ninf => false
  | .inf, _ => false
  | _, .inf => true
  | .num a, .num b => decide (a < b)

/-- Greater-than, as the flipped strict comparison. -/
def jsGt (a b : JSNum) : Bool := jsLt b a

/-- Binary `Math.max`: `NaN` if either argument is `NaN`. -/
def jsMax : JSNum → JSNum → JSNum
  | .nan, _ => .nan
  | _, .nan => .nan
  | a, b => if jsLt a b then b else a

/-- Binary `Math.min`: `NaN` if either argument is `NaN`. -/
def jsMin : JSNum → JSNum → JSNum
  | .nan, _ => .nan
  | _, .nan => .nan
  | a, b => if jsLt b a then b else a

/-- Spread `Math.max(...xs)` over a list of numbers; the empty spread yields
`-Infinity`, exactly as `Math.max()` does. -/
def jsMaxList (xs : List ℚ) : JSNum := xs.foldl (fun acc v => jsMax acc (.num v)) .ninf

/-- Spread `Math.min(...xs)`; the empty spread yields `Infinity`. -/
def jsMinList (xs : List ℚ) : JSNum := xs.foldl (fun acc v => jsMin acc (.num v)) .inf

/-- JavaScript `x || 1` on a number: `0` and `NaN` are falsy. -/
def jsOrOne (x : JSNum) : JSNum := if x = .num 0 ∨ x = .nan then .num 1 else x

/-- Coercion of a possibly-`undefined` array element into arithmetic:
`undefined` becomes `NaN`. -/
def jsOfOption : Option ℚ → JSNum
  | none => .nan
  | some v => .num v

/-- `Math.round`: half-way values round toward positive infinity. -/
def jsRound : JSNum → JSNum
  | .nan => .nan
  | .inf => .inf
  | .ninf => .ninf
  | .num q => .num (⌊q + 1/2⌋ : ℤ)

/-- JavaScript `s || default` on a possibly-missing string: `undefined` and
the empty string are falsy. -/
def strOrDefault (o : Option String) (d : String) : String :=
  match o with
  | none => d
  | some s => if s = "" then d else s

/-- The inline label-truncation pattern both renderers use:
`label.length > maxChars ? label.substring(0, maxChars) + '...' : label`
(`App.js` line chart uses `maxChars = 12`, `ResponseInterface.jsx` bar chart
uses `maxChars = 20`). -/
def truncateLabel (maxChars : Nat) (label : String) : String :=
  if maxChars < label.length then (String.mk (label.toList.take maxChars)) ++ "..." else label

/-- Truncation as §4.4 of the spec words it: cut to `maxChars - 3` characters
and append an ellipsis. Stated only to compare against the source's
`truncateLabel`, which cuts to `maxChars` characters instead. -/
def truncateSpec (maxChars : Nat) (label : String) : String :=
  if maxChars < label.length then (String.mk (label.toList.take (maxChars - 3))) ++ "..." else label

/-- Palette lookup `colors[index % colors.length]`: when the palette is empty
the JS index is `NaN` and the lookup yields `undefined` (`none`). -/
def nthColor (cs : List String) (i : Nat) : Option String :=
  if cs.length = 0 then none else cs[i % cs.length]?

/-- Fixed `vibrant` palette of `App.js`. -/
def vibrantPalette : List String :=
  ["#3B82F6", "#10B981", "#F59E0B", "#EF4444", "#8B5CF6", "#EC4899", "#06B6D4", "#84CC16"]

/-- Fixed six-color palette declared inline in `ResponseInterface.jsx`. -/
def riChartColors : List String :=
  ["#3B82F6", "#10B981", "#F59E0B", "#EF4444", "#8B5CF6", "#EC4899"]

/-- A single dataset of the payload; its `data` field may be absent. -/
structure Dataset where
  data : Option (List ℚ)
deriving DecidableEq, Repr

/-- The `chartData.data` object: category labels plus the datasets array. -/
structure ChartBody where
  labels : List String
  datasets : List Dataset
deriving DecidableEq, Repr

/-- The chart payload handed to `ChartDisplay`: a possibly-missing `type`
tag, a possibly-missing `data` object, and the flattened optional chain
`options?.plugins?.title?.text`. -/
structure ChartData where
  type : Option String
  data : Option ChartBody
  optionsTitleText : Option String
deriving DecidableEq, Repr

/-- The one JavaScript exception the renderers can raise: calling a method
on `undefined`. -/
inductive JsError where
  | typeError : JsError
deriving DecidableEq, Repr

/-- The effective series: `datasets[0]?.data || []` (an absent first dataset
or an absent `data` field yields the empty series; a present array, even
empty, is truthy and is used as-is). -/
def effectiveSeries (datasets : List Dataset) : List ℚ :=
  (datasets.head?.bind Dataset.data).getD []

/-- One rendered bar row: the category label, the CSS width percentage of the
inner bar, and the value shown at its right end (`none` when `data[index]`
is `undefined`, which React renders as nothing). -/
structure BarRow where
  label : String
  width : JSNum
  value : Option ℚ
deriving DecidableEq, Repr

namespace App

/-- One drawn slice of `renderPieChart`/`renderDoughnutChart` in `App.js`:
the React key `index`, start and end angle in degrees (the source derives the
SVG path coordinates from these by fixed cosine/sine maps), the large-arc
flag, the percentage shown in the tooltip, and the fill color. Angles are
exact rationals because `App.js` guards every division by `total > 0`. -/
structure Arc where
  index : Nat
  startAngle : ℚ
  endAngle : ℚ
  largeArc : Bool
  pct : ℚ
  color : Option String
deriving DecidableEq, Repr

/-- One legend row of the `App.js` pie/doughnut renderers: color swatch,
label, the raw value (whose `.toLocaleString()` call forces it to exist), and
the percentage of the total. -/
structure LegendEntry where
  color : Option String
  label : String
  value : ℚ
  pct : ℚ
deriving DecidableEq, Repr

/-- Percentage of one entry:
`total > 0 ? (value / total) * 100 : 0` (`App.js` lines 298 and 335). -/
def piePct (total v : ℚ) : ℚ := if 0 < total then v / total * 100 else 0

/-- Slice angle of one entry: `(percentage / 100) * 360` (`App.js` line 299). -/
def pieAngle (total v : ℚ) : ℚ := piePct total v / 100 * 360

/-- The arc-emitting loop of `App.js` `renderPieChart` (lines 297-323): walk
the series with a running angle accumulator; the accumulator advances by
every entry's angle, but an entry whose percentage is below `0.5` emits no
path (`if (percentage < 0.5) return null`). -/
def pieArcsGo (total : ℚ) (colors : List String) : Nat → ℚ → List ℚ → List Arc
  | _, _, [] => []
  | i, cur, v :: vs =>
    let pct := piePct total v
    let ang := pieAngle total v
    let rest := pieArcsGo total colors (i + 1) (cur + ang) vs
    if pct < 1/2 then rest
    else ⟨i, cur, cur + ang, decide (180 < ang), pct, nthColor colors i⟩ :: rest

/-- The legend loop of `App.js` (lines 333-356): map over `labels` with
index `i`; building row `i` calls `data[i].toLocaleString()`, which throws a
`TypeError` when `data[i]` is `undefined`. -/
def pieLegend (colors : List String) (total : ℚ) (data : List ℚ) :
    Nat → List String → Except JsError (List LegendEntry)
  | _, [] => .ok []
  | i, l :: ls =>
    match data[i]? with
    | none => .error .typeError
    | some v =>
      match pieLegend colors total data (i + 1) ls with
      | .error e => .error e
      | .ok rest => .ok (⟨nthColor colors i, l, v, piePct total v⟩ :: rest)

/-- Characterization of the legend rows that `pieLegend` produces when it
does not throw (`data[i]` defaulted to `0` where it would have thrown); used
only through the lemma equating it with the `.ok` value of `pieLegend`. -/
def legendPure (colors : List String) (total : ℚ) (data : List ℚ) :
    Nat → List String → List LegendEntry
  | _, [] => []
  | i, l :: ls =>
    ⟨nthColor colors i, l, (data[i]?).getD 0, piePct total ((data[i]?).getD 0)⟩ ::
      legendPure colors total data (i + 1) ls

/-- Instruction tree of the `App.js` pie/doughnut renderers: drawn arcs, the
total shown at the center, and the legend rows. -/
structure PieTree where
  arcs : List Arc
  total : ℚ
  legend : List LegendEntry
deriving DecidableEq, Repr

/-- Shared computation of `renderPieChart` and `renderDoughnutChart` in
`App.js`: the two functions duplicate the identical total/angle/threshold/
legend logic (lines 288-359 and 361-438) and differ only in the annulus path
coordinates, which are determined by the stored angles and the inner radius
constant. `total` is `data.reduce((s, v) => s + (typeof v === 'number' ? v : 0), 0)`,
which over numeric series is the plain sum; the palette is
`getChartColors(type, data.length) = vibrant.slice(0, data.length)`. -/
def renderPieCore (labels : List String) (data : List ℚ) : Except JsError PieTree :=
  let total := data.sum
  let colors := vibrantPalette.take data.length
  match pieLegend colors total data 0 labels with
  | .error e => .error e
  | .ok legend => .ok ⟨pieArcsGo total colors 0 0 data, total, legend⟩

/-- Bar renderer of `App.js` (lines 266-286): one row per label; the inner
width is `maxValue > 0 ? (data[index] / maxValue) * 100 : 0` percent with no
lower clamp; the value text is shown only for numeric entries. -/
def renderBarChart (maxValue : JSNum) (labels : List String) (data : List ℚ) : List BarRow :=
  labels.enum.map (fun p =>
    ⟨p.2,
     if jsGt maxValue (.num 0) then jsMul (jsDiv (jsOfOption (data[p.1]?)) maxValue) (.num 100)
     else .num 0,
     data[p.1]?⟩)

/-- One horizontal grid line of the `App.js` line chart with its tick text
`Math.round(lineMaxValue - (i * lineRange / 5))`. -/
structure GridTick where
  y : ℚ
  tick : JSNum
deriving DecidableEq, Repr

/-- One data point of the `App.js` line chart. -/
structure LinePoint where
  x : ℚ
  y : JSNum
  value : ℚ
deriving DecidableEq, Repr

/-- One x-axis label of the `App.js` line chart: rotated when the raw label
is longer than 8 characters, text truncated at 12 characters. -/
structure LineLabel where
  x : ℚ
  rotated : Bool
  text : String
deriving DecidableEq, Repr

/-- Instruction tree of the `App.js` line chart; the polyline is the same
point list as `points`. -/
structure LineTree where
  grid : List GridTick
  points : List LinePoint
  labelMarks : List LineLabel
deriving DecidableEq, Repr

/-- Line renderer of `App.js` (lines 440-526): min/max over the series (the
`typeof` filter is identically true here), range defaulted to 1 via `|| 1`
when falsy, six grid lines, point placement
`x = 80 + index * (570 / Math.max(data.length - 1, 1))`,
`y = 260 - ((value - lineMinValue) / lineRange) * 200`. -/
def renderLineChart (labels : List String) (data : List ℚ) : LineTree :=
  let lineMaxValue := jsMaxList data
  let lineMinValue := jsMinList data
  let lineRange := jsOrOne (jsSub lineMaxValue lineMinValue)
  let step : ℚ := 570 / ((max (data.length - 1) 1 : ℕ) : ℚ)
  { grid := (List.range 6).map (fun i =>
      ⟨60 + (i : ℚ) * 40,
       jsRound (jsSub lineMaxValue (jsDiv (jsMul (.num (i : ℚ)) lineRange) (.num 5)))⟩),
    points := data.enum.map (fun p =>
      ⟨80 + (p.1 : ℚ) * step,
       jsSub (.num 260) (jsMul (jsDiv (jsSub (.num p.2) lineMinValue) lineRange) (.num 200)),
       p.2⟩),
    labelMarks := labels.enum.map (fun p =>
      ⟨80 + (p.1 : ℚ) * step, decide (8 < p.2.length), truncateLabel 12 p.2⟩) }

/-- Chart body selected by the `renderChart` dispatch of `App.js`. -/
inductive Body where
  | bar (rows : List BarRow)
  | pie (t : PieTree)
  | doughnut (t : PieTree)
  | line (t : LineTree)
deriving DecidableEq, Repr

/-- The assembled `ChartDisplay` output of `App.js`: title (with the
`'Analytics Chart'` fallback), the resolved chart type, the
`data.length` data-point count shown in the header, the chart body, and the
footer's `Generated: new Date().toLocaleTimeString()` stamp. -/
structure RenderTree where
  title : String
  chartType : String
  dataPointCount : Nat
  body : Body
  generatedAt : String
deriving DecidableEq, Repr

/-- The `renderChart` switch of `App.js` (lines 528-542): `pie`, `doughnut`
and `line` have cases; every other type tag falls through to the bar
renderer. -/
def bodyFor (chartType : String) (maxValue : JSNum) (labels : List String) (data : List ℚ) :
    Except JsError Body :=
  match chartType with
  | "pie" =>
    match renderPieCore labels data with
    | .error e => .error e
    | .ok t => .ok (.pie t)
  | "doughnut" =>
    match renderPieCore labels data with
    | .error e => .error e
    | .ok t => .ok (.doughnut t)
  | "line" => .ok (.line (renderLineChart labels data))
  | _ => .ok (.bar (renderBarChart maxValue labels data))

/-- The `ChartDisplay` component of `App.js` (lines 246-581).  `now` is the
string `new Date().toLocaleTimeString()` evaluates to at the moment of the
call.  Returns `none` when the payload or its `data` field is absent
(line 247), and propagates the one possible `TypeError`. -/
def ChartDisplay (chartData : Option ChartData) (now : String) :
    Except JsError (Option RenderTree) :=
  match chartData with
  | none => .ok none
  | some cd =>
    match cd.data with
    | none => .ok none
    | some body =>
      let labels := body.labels
      let data := effectiveSeries body.datasets
      let maxValue := jsMaxList data
      let chartType := strOrDefault cd.type "bar"
      match bodyFor chartType maxValue labels data with
      | .error e => .error e
      | .ok b =>
        .ok (some ⟨strOrDefault cd.optionsTitleText "Analytics Chart", chartType,
                   data.length, b, now⟩)

/-- Erase the footer timestamp of a render tree. -/
def stripTime (t : RenderTree) : RenderTree := { t with generatedAt := "" }

end App

namespace RI

/-- One drawn slice of the `ResponseInterface.jsx` pie/doughnut renderers.
Unlike `App.js`, the divisions by `total` are unguarded, so angles and
percentages are `JSNum` (they are `NaN` or infinite when `total = 0`); there
is no visibility threshold, and every numeric entry emits a path. -/
structure Arc where
  index : Nat
  startAngle : JSNum
  endAngle : JSNum
  largeArc : Bool
  pct : JSNum
  color : Option String
deriving DecidableEq, Repr

/-- One legend row of the `ResponseInterface.jsx` pie/doughnut renderers:
the value display is `typeof`-guarded (so `undefined` renders as nothing
rather than throwing) and the percentage is the unguarded
`(data[index] / total) * 100`. -/
structure LegendEntry where
  color : Option String
  label : String
  value : Option ℚ
  pct : JSNum
deriving DecidableEq, Repr

/-- The arc loop of `ResponseInterface.jsx` `renderPieChart` (lines 265-299)
and `renderDoughnutChart` (lines 337-379), which duplicate the identical
angle computation: `percentage = (value / total) * 100`,
`angle = (value / total) * 360`, running accumulator `currentAngle`, colors
from the inline six-color palette. The `typeof value !== 'number'` skip is
identically false over numeric series. -/
def arcsGo (total : ℚ) : Nat → JSNum → List ℚ → List Arc
  | _, _, [] => []
  | i, cur, v :: vs =>
    let pct := jsMul (jsDiv (.num v) (.num total)) (.num 100)
    let ang := jsMul (jsDiv (.num v) (.num total)) (.num 360)
    ⟨i, cur, jsAdd cur ang, jsGt ang (.num 180), pct, nthColor riChartColors i⟩ ::
      arcsGo total (i + 1) (jsAdd cur ang) vs

/-- The legend loop of `ResponseInterface.jsx` (lines 303-320 and 391-408):
map over `labels`; `percentage = ((data[index] / total) * 100).toFixed(1)`
is computed unguarded, and the value text shows only numeric entries. -/
def legendGo (total : ℚ) (data : List ℚ) : Nat → List String → List LegendEntry
  | _, [] => []
  | i, l :: ls =>
    ⟨nthColor riChartColors i, l, data[i]?,
     jsMul (jsDiv (jsOfOption (data[i]?)) (.num total)) (.num 100)⟩ ::
      legendGo total data (i + 1) ls

/-- Instruction tree of the `ResponseInterface.jsx` pie/doughnut renderers. -/
structure PieTree where
  arcs : List Arc
  total : ℚ
  legend : List LegendEntry
deriving DecidableEq, Repr

/-- Shared computation of `renderPieChart` and `renderDoughnutChart` in
`ResponseInterface.jsx`; the doughnut copy differs only in radii constants
and the label-position factor, both determined by the stored angles. -/
def renderPieCore (labels : List String) (data : List ℚ) : PieTree :=
  let total := data.sum
  ⟨arcsGo total 0 (.num 0) data, total, legendGo total data 0 labels⟩

/-- Bar renderer of `ResponseInterface.jsx` (lines 233-253): labels are
truncated at 20 characters, and the width is
`maxValue > 0 ? Math.max((data[index] / maxValue) * 100, 8) : 8` — clamped
below at 8% of the track, and exactly 8% for every bar when the maximum is
not positive. -/
def renderBarChart (maxValue : JSNum) (labels : List String) (data : List ℚ) : List BarRow :=
  labels.enum.map (fun p =>
    ⟨truncateLabel 20 p.2,
     if jsGt maxValue (.num 0) then
       jsMax (jsMul (jsDiv (jsOfOption (data[p.1]?)) maxValue) (.num 100)) (.num 8)
     else .num 8,
     data[p.1]?⟩)

/-- One data point of the `ResponseInterface.jsx` line chart, with the x-axis
label drawn under it (`labels[index]`, `undefined` renders as nothing). -/
structure LinePoint where
  x : ℚ
  y : JSNum
  value : ℚ
  label : Option String
deriving DecidableEq, Repr

/-- Instruction tree of the `ResponseInterface.jsx` line chart; the polyline
joins the same point list. -/
structure LineTree where
  points : List LinePoint
deriving DecidableEq, Repr

/-- Line renderer of `ResponseInterface.jsx` (lines 414-467):
`maxValue = Math.max(...data)` (unfiltered), `range = maxValue - minValue || 1`,
`x = 60 + index * (600 - 120) / Math.max(data.length - 1, 1)`,
`y = 350 - 60 - ((value - minValue) / range) * (350 - 120)`. -/
def renderLineChart (labels : List String) (data : List ℚ) : LineTree :=
  let maxValue := jsMaxList data
  let minValue := jsMinList data
  let range := jsOrOne (jsSub maxValue minValue)
  let step : ℚ := 480 / ((max (data.length - 1) 1 : ℕ) : ℚ)
  ⟨data.enum.map (fun p =>
    ⟨60 + (p.1 : ℚ) * step,
     jsSub (.num 290) (jsMul (jsDiv (jsSub (.num p.2) minValue) range) (.num 230)),
     p.2, labels[p.1]?⟩)⟩

/-- Chart body selected by the `renderChart` dispatch of
`ResponseInterface.jsx` (lines 478-485). -/
inductive Body where
  | bar (rows : List BarRow)
  | pie (t : PieTree)
  | doughnut (t : PieTree)
  | line (t : LineTree)
deriving DecidableEq, Repr

/-- The assembled `ChartDisplay` output of `ResponseInterface.jsx`, with the
same header/footer fields as the `App.js` copy, including the footer's
`Generated: new Date().toLocaleTimeString()` stamp. -/
structure RenderTree where
  title : String
  chartType : String
  dataPointCount : Nat
  body : Body
  generatedAt : String
deriving DecidableEq, Repr

/-- The `renderChart` switch of `ResponseInterface.jsx`: unknown type tags
fall through to the bar renderer. -/
def bodyFor (chartType : String) (maxValue : JSNum) (labels : List String) (data : List ℚ) :
    Body :=
  match chartType with
  | "pie" => .pie (renderPieCore labels data)
  | "doughnut" => .doughnut (renderPieCore labels data)
  | "line" => .line (renderLineChart labels data)
  | _ => .bar (renderBarChart maxValue labels data)

/-- The `ChartDisplay` component of `ResponseInterface.jsx` (lines 225-513).
No execution path of this copy can throw over numeric series: the only
method calls on possibly-`undefined` values are `typeof`-guarded, so the
embedding is a total function. -/
def ChartDisplay (chartData : Option ChartData) (now : String) : Option RenderTree :=
  match chartData with
  | none => none
  | some cd =>
    match cd.data with
    | none => none
    | some body =>
      let labels := body.labels
      let data := effectiveSeries body.datasets
      let maxValue := jsMaxList data
      let chartType := strOrDefault cd.type "bar"
      some ⟨strOrDefault cd.optionsTitleText "Analytics Chart", chartType,
            data.length, bodyFor chartType maxValue labels data, now⟩

/-- Erase the footer timestamp of a render tree. -/
def stripTime (t : RenderTree) : RenderTree := { t with generatedAt := "" }

end RI

namespace App

/-- When every label index is in range, the legend loop does not throw and
produces exactly the rows described by `legendPure`. -/
theorem pieLegend_eq_ok (colors : List String) (total : ℚ) (data : List ℚ) :
    ∀ (ls : List String) (i : Nat), i + ls.length ≤ data.length →
      pieLegend colors total data i ls = .ok (legendPure colors total data i ls) := by
  intro ls
  induction ls with
  | nil => intro i _; rfl
  | cons l ls ih =>
    intro i h
    have hi : i < data.length := by simp at h; omega
    have hv : data[i]? = some data[i] := List.getElem?_eq_getElem hi
    simp only [pieLegend, legendPure, hv, Option.getD_some, ih (i + 1) (by simp at h ⊢; omega)]

/-- When the labels run past the series, the legend loop throws the
`TypeError` of `undefined.toLocaleString()`. -/
theorem pieLegend_err (colors : List String) (total : ℚ) (data : List ℚ) :
    ∀ (ls : List String) (i : Nat), i ≤ data.length → data.length < i + ls.length →
      pieLegend colors total data i ls = .error .typeError := by
  intro ls
  induction ls with
  | nil => intro i h1 h2; simp at h2; omega
  | cons l ls ih =>
    intro i h1 h2
    rcases Nat.lt_or_ge i data.length with hi | hi
    · have hv : data[i]? = some data[i] := List.getElem?_eq_getElem hi
      simp only [pieLegend, hv]
      rw [ih (i + 1) (by omega) (by simp at h2 ⊢; omega)]
    · have hnone : data[i]? = none := List.getElem?_eq_none (by omega)
      simp only [pieLegend, hnone]

/-- Percentage column of the legend rows. -/
theorem legendPure_map_pct (colors : List String) (total : ℚ) (data : List ℚ) :
    ∀ (ls : List String) (i : Nat), i + ls.length = data.length →
      (legendPure colors total data i ls).map LegendEntry.pct =
        (data.drop i).map (piePct total) := by
  intro ls
  induction ls with
  | nil =>
    intro i h
    simp at h
    simp [legendPure, h, List.drop_length]
  | cons l ls ih =>
    intro i h
    have hi : i < data.length := by simp at h; omega
    have hv : data[i]? = some data[i] := List.getElem?_eq_getElem hi
    rw [List.drop_eq_getElem_cons hi]
    simp only [legendPure, List.map_cons, hv, Option.getD_some, ih (i + 1) (by simp at h ⊢; omega)]

/-- Value column of the legend rows. -/
theorem legendPure_map_value (colors : List String) (total : ℚ) (data : List ℚ) :
    ∀ (ls : List String) (i : Nat), i + ls.length = data.length →
      (legendPure colors total data i ls).map LegendEntry.value = data.drop i := by
  intro ls
  induction ls with
  | nil =>
    intro i h
    simp at h
    simp [legendPure, h, List.drop_length]
  | cons l ls ih =>
    intro i h
    have hi : i < data.length := by simp at h; omega
    have hv : data[i]? = some data[i] := List.getElem?_eq_getElem hi
    rw [List.drop_eq_getElem_cons hi]
    simp only [legendPure, List.map_cons, hv, Option.getD_some, ih (i + 1) (by simp at h ⊢; omega)]

end App

namespace App

/-- Every arc the loop emits sits at offset `k` in the remaining series, is
kept only when its percentage reaches the 0.5 threshold, and starts at the
accumulator value advanced by the angles of all earlier entries (suppressed
ones included). -/
theorem pieArcsGo_mem (total : ℚ) (colors : List String) :
    ∀ (vs : List ℚ) (i : Nat) (cur : ℚ) (a : Arc), a ∈ pieArcsGo total colors i cur vs →
      ∃ k, ∃ hk : k < vs.length,
        a.index = i + k ∧
        ¬ piePct total vs[k] < 1/2 ∧
        a.startAngle = cur + ((vs.take k).map (pieAngle total)).sum ∧
        a.endAngle = a.startAngle + pieAngle total vs[k] := by
  intro vs
  induction vs with
  | nil => intro i cur a ha; simp [pieArcsGo] at ha
  | cons v vs ih =>
    intro i cur a ha
    rw [pieArcsGo] at ha
    by_cases hp : piePct total v < 1/2
    · rw [if_pos hp] at ha
      obtain ⟨k, hk, h1, h2, h3, h4⟩ := ih (i + 1) (cur + pieAngle total v) a ha
      refine ⟨k + 1, by simpa using Nat.succ_lt_succ hk, by omega, by simpa using h2, ?_, by simpa using h4⟩
      rw [h3, List.take_succ_cons, List.map_cons, List.sum_cons]
      ring
    · rw [if_neg hp] at ha
      rcases List.mem_cons.1 ha with rfl | ha
      · exact ⟨0, by simp, by simp, by simpa using hp, by simp, by simp⟩
      · obtain ⟨k, hk, h1, h2, h3, h4⟩ := ih (i + 1) (cur + pieAngle total v) a ha
        refine ⟨k + 1, by simpa using Nat.succ_lt_succ hk, by omega, by simpa using h2, ?_, by simpa using h4⟩
        rw [h3, List.take_succ_cons, List.map_cons, List.sum_cons]
        ring

/-- When the guarded percentage of every entry is below the threshold (in
particular when `total = 0` makes every percentage the guarded `0`), the loop
draws nothing. -/
theorem pieArcsGo_total_nonpos (total : ℚ) (colors : List String) (h : ¬ 0 < total) :
    ∀ (vs : List ℚ) (i : Nat) (cur : ℚ), pieArcsGo total colors i cur vs = [] := by
  intro vs
  induction vs with
  | nil => intro i cur; rfl
  | cons v vs ih =>
    intro i cur
    rw [pieArcsGo]
    have hp : piePct total v < 1/2 := by
      rw [piePct, if_neg h]; norm_num
    rw [if_pos hp, ih]

end App

namespace App

/-- With enough series entries for every label, the pie/doughnut core
succeeds and its legend is the `legendPure` row list. -/
theorem renderPieCore_ok (labels : List String) (data : List ℚ)
    (h : labels.length ≤ data.length) :
    renderPieCore labels data =
      .ok ⟨pieArcsGo data.sum (vibrantPalette.take data.length) 0 0 data, data.sum,
           legendPure (vibrantPalette.take data.length) data.sum data 0 labels⟩ := by
  rw [renderPieCore, pieLegend_eq_ok _ _ _ labels 0 (by omega)]

/-- With enough series entries for every label, the dispatch never throws,
whatever the type tag. -/
theorem bodyFor_ok (ct : String) (mv : JSNum) (labels : List String) (data : List ℚ)
    (h : labels.length ≤ data.length) :
    ∃ b, bodyFor ct mv labels data = .ok b := by
  by_cases h1 : ct = "pie"
  · subst h1
    simp only [bodyFor, renderPieCore_ok _ _ h]
    exact ⟨_, rfl⟩
  by_cases h2 : ct = "doughnut"
  · subst h2
    simp only [bodyFor, renderPieCore_ok _ _ h]
    exact ⟨_, rfl⟩
  by_cases h3 : ct = "line"
  · subst h3
    simp only [bodyFor]
    exact ⟨_, rfl⟩
  · simp only [bodyFor]
    simp [h1, h2, h3]

end App

namespace RI

/-- Every legend row's percentage is the unguarded division of its series
entry by the total. -/
theorem legendGo_mem_pct (total : ℚ) (data : List ℚ) :
    ∀ (ls : List String) (i : Nat) (e : LegendEntry), e ∈ legendGo total data i ls →
      ∃ k : Nat, e.pct = jsMul (jsDiv (jsOfOption data[k]?) (.num total)) (.num 100) := by
  intro ls
  induction ls with
  | nil => intro i e he; simp [legendGo] at he
  | cons l ls ih =>
    intro i e he
    rw [legendGo] at he
    rcases List.mem_cons.1 he with rfl | he
    · exact ⟨i, rfl⟩
    · exact ih (i + 1) e he

end RI

theorem jsMax_num (a b : ℚ) : jsMax (.num a) (.num b) = .num (max a b) := by
  rcases le_or_lt b a with h | h
  · rw [max_eq_left h]
    simp [jsMax, jsLt, not_lt.2 h]
  · rw [max_eq_right h.le]
    simp [jsMax, jsLt, h]

theorem jsDiv_num (a b : ℚ) (hb : b ≠ 0) : jsDiv (.num a) (.num b) = .num (a / b) := by
  simp [jsDiv, hb]

theorem jsMul_num (a b : ℚ) : jsMul (.num a) (.num b) = .num (a * b) := rfl

theorem jsGt_num (a b : ℚ) : jsGt (.num a) (.num b) = decide (b < a) := rfl

namespace App

theorem legendPure_mem_pct (colors : List String) (total : ℚ) (data : List ℚ) :
    ∀ (ls : List String) (i : Nat) (e : LegendEntry), e ∈ legendPure colors total data i ls →
      ∃ k : Nat, e.pct = piePct total ((data[k]?).getD 0) := by
  intro ls
  induction ls with
  | nil => intro i e he; simp [legendPure] at he
  | cons l ls ih =>
    intro i e he
    rw [legendPure] at he
    rcases List.mem_cons.1 he with rfl | he
    · exact ⟨i, rfl⟩
    · exact ih (i + 1) e he

end App

/-- Claim C3 (amended): when the series sums to 0, `App.js` guards the
division (`total > 0 ? ... : 0`), so it draws no arcs, every computed slice
angle and percentage is 0 and every legend percentage is 0; but
`ResponseInterface.jsx` divides unguarded, so none of its legend percentages
is a finite number (each is `NaN` or a signed infinity, never 0). -/
theorem C3_amended :
    ∀ (labels : List String) (data : List ℚ),
      labels.length = data.length → data.sum = 0 →
      (∃ t, App.renderPieCore labels data = .ok t ∧ t.arcs = [] ∧
        (∀ e ∈ t.legend, e.pct = 0)) ∧
      (∀ v ∈ data, App.pieAngle data.sum v = 0 ∧ App.piePct data.sum v = 0) ∧
      (∀ e ∈ (RI.renderPieCore labels data).legend, ∀ q : ℚ, e.pct ≠ .num q) := by
  intro labels data hlen hsum
  have hnp : ¬ (0 : ℚ) < data.sum := by rw [hsum]; exact lt_irrefl 0
  refine ⟨⟨_, App.renderPieCore_ok labels data hlen.le, ?_, ?_⟩, ?_, ?_⟩
  · exact App.pieArcsGo_total_nonpos data.sum _ hnp data 0 0
  · intro e he
    obtain ⟨k, hk⟩ := App.legendPure_mem_pct _ _ _ labels 0 e he
    rw [hk, App.piePct, if_neg hnp]
  · intro v _
    constructor
    · rw [App.pieAngle, App.piePct, if_neg hnp]
      norm_num
    · rw [App.piePct, if_neg hnp]
  · intro e he q
    obtain ⟨k, hk⟩ := RI.legendGo_mem_pct data.sum data labels 0 e he
    rw [hk, hsum]
    rcases hd : data[k]? with _ | v
    · simp [jsOfOption, jsDiv, jsMul]
    · simp only [jsOfOption]
      rcases lt_trichotomy v 0 with hv | hv | hv
    
      · simp [jsDiv, jsMul, hv, ne_of_lt hv, not_lt.2 hv.le, hv.not_lt]
      · subst hv
        simp [jsDiv, jsMul]
      · simp [jsDiv, jsMul, ne_of_gt hv, hv]

/-- Claim C3 counterexample: the `ResponseInterface.jsx` pie renderer on
labels `["A"]`, series `[0]` (total 0) produces legend percentage `NaN` and
slice end angle `NaN`, not the claimed 0. -/
theorem C3_counterexample :
    (RI.renderPieCore ["A"] [0]).legend.map RI.LegendEntry.pct = [JSNum.nan] ∧
    (RI.renderPieCore ["A"] [0]).arcs.map RI.Arc.endAngle = [JSNum.nan] ∧
    JSNum.nan ≠ JSNum.num 0 := by
  refine ⟨?_, ?_, by simp⟩
  · simp [RI.renderPieCore, RI.legendGo, jsMul, jsDiv, jsOfOption]
  · simp [RI.renderPieCore, RI.arcsGo, jsMul, jsDiv, jsAdd]

/-- Claim C5 (amended): the 8%-minimum clamp exists only in
`ResponseInterface.jsx`, whose bar widths are `max(series[i]/max*100, 8)`
when the maximum is positive and exactly 8 otherwise; the `App.js` bar
renderer applies no clamp — its widths are exactly `series[i]/max*100` when
the maximum is positive and 0 otherwise. -/
theorem C5_amended :
    ∀ (labels : List String) (data : List ℚ) (i : Nat) (M : ℚ),
      labels.length = data.length → i < data.length →
      jsMaxList data = .num M →
      ∀ v, data[i]? = some v →
      (0 < M →
         ((RI.renderBarChart (jsMaxList data) labels data).map BarRow.width)[i]? =
           some (.num (max (v / M * 100) 8)) ∧
         ((App.renderBarChart (jsMaxList data) labels data).map BarRow.width)[i]? =
           some (.num (v / M * 100))) ∧
      (M ≤ 0 →
         ((RI.renderBarChart (jsMaxList data) labels data).map BarRow.width)[i]? =
           some (.num 8) ∧
         ((App.renderBarChart (jsMaxList data) labels data).map BarRow.width)[i]? =
           some (.num 0)) := by
  intro labels data i M hlen hi hM v hv
  have hli : i < labels.length := by omega
  have henum : (labels.enum)[i]? = some (i, labels[i]) := by
    rw [List.getElem?_enum, List.getElem?_eq_getElem hli, Option.map_some']
  constructor
  · intro hMpos
    have hgt : jsGt (jsMaxList data) (.num 0) = true := by
      rw [hM, jsGt_num, decide_eq_true_eq]
      exact hMpos
    constructor
    · simp only [RI.renderBarChart, List.map_map, List.getElem?_map, henum,
        Option.map_some', Function.comp]
      rw [hgt, if_pos rfl, hv]
      simp only [jsOfOption, hM, jsDiv_num v M (ne_of_gt hMpos), jsMul_num, jsMax_num]
    · simp only [App.renderBarChart, List.map_map, List.getElem?_map, henum,
        Option.map_some', Function.comp]
      rw [hgt, if_pos rfl, hv]
      simp only [jsOfOption, hM, jsDiv_num v M (ne_of_gt hMpos), jsMul_num]
  · intro hMle
    have hgt : jsGt (jsMaxList data) (.num 0) = false := by
      rw [hM, jsGt_num, decide_eq_false_iff_not]
      exact not_lt.2 hMle
    constructor
    · simp only [RI.renderBarChart, List.map_map, List.getElem?_map, henum,
        Option.map_some', Function.comp]
      rw [hgt, if_neg (by simp)]
    · simp only [App.renderBarChart, List.map_map, List.getElem?_map, henum,
        Option.map_some', Function.comp]
      rw [hgt, if_neg (by simp)]

/-- Claim C5 counterexample: the `App.js` bar renderer on series `[0, 10]`
renders the first bar at width 0%, not at the claimed 8% minimum visible
length. -/
theorem C5_counterexample :
    (App.renderBarChart (jsMaxList [0, 10]) ["A", "B"] [0, 10]).map BarRow.width =
      [JSNum.num 0, JSNum.num 100] ∧ JSNum.num 0 ≠ JSNum.num 8 := by
  constructor
  · have hM : jsMaxList [(0 : ℚ), 10] = .num 10 := by
      simp [jsMaxList, jsMax, jsLt]
    rw [hM]
    norm_num [App.renderBarChart, List.enum, List.enumFrom, jsGt_num, jsDiv, jsMul, jsOfOption]
  · simp

/-- Claim C6 counterexample: a 13-character label with budget 12 is cut to
its first 12 characters before the ellipsis, not to `maxChars - 3 = 9` as
the claim states. -/
theorem C6_counterexample :
    truncateLabel 12 "abcdefghijklm" = "abcdefghijkl..." ∧
    truncateSpec 12 "abcdefghijklm" = "abcdefghi..." ∧
    truncateLabel 12 "abcdefghijklm" ≠ truncateSpec 12 "abcdefghijklm" := by
  refine ⟨?_, ?_, ?_⟩ <;> decide

/-- Claim C6 (amended): truncation returns the label unchanged when its
length is within the budget, and otherwise keeps the first `maxChars`
characters (not `maxChars - 3`) and appends an ellipsis; the `App.js` line
chart applies it with budget 12 and the `ResponseInterface.jsx` bar chart
with budget 20. -/
theorem C6_amended :
    ∀ (labels : List String) (data : List ℚ),
      ((App.renderLineChart labels data).labelMarks.map App.LineLabel.text =
        labels.map (truncateLabel 12)) ∧
      ((RI.renderBarChart (jsMaxList data) labels data).map BarRow.label =
        labels.map (truncateLabel 20)) ∧
      (∀ (s : String) (k : Nat), k < s.length →
        truncateLabel k s = String.mk (s.toList.take k) ++ "...") ∧
      (∀ (s : String) (k : Nat), s.length ≤ k → truncateLabel k s = s) := by
  intro labels data
  refine ⟨?_, ?_, fun s k h => by rw [truncateLabel, if_pos h],
    fun s k h => by rw [truncateLabel, if_neg (not_lt.2 h)]⟩
  · have h1 : (labels.enum.map Prod.snd).map (truncateLabel 12) =
        labels.map (truncateLabel 12) := by rw [List.enum_map_snd]
    rw [← h1, List.map_map]
    simp only [App.renderLineChart, List.map_map]
    rfl
  · have h1 : (labels.enum.map Prod.snd).map (truncateLabel 20) =
        labels.map (truncateLabel 20) := by rw [List.enum_map_snd]
    rw [← h1, List.map_map]
    simp only [RI.renderBarChart, List.map_map]
    rfl

/-- Claim C7: in the `App.js` pie/doughnut core with positive total, an
entry whose percentage is below the 0.5 visibility threshold emits no drawn
arc, yet every drawn arc's start angle is the sum of the angles of all
earlier entries (the suppressed entry still advances the accumulator), and
the suppressed entry still appears in the legend with its value and
percentage. -/
theorem C7_theorem :
    ∀ (labels : List String) (data : List ℚ) (i : Nat),
      labels.length = data.length →
      ∀ (hi : i < data.length),
      0 < data.sum → App.piePct data.sum data[i] < 1/2 →
      ∃ t, App.renderPieCore labels data = .ok t ∧
        (∀ a ∈ t.arcs, a.index ≠ i) ∧
        (∀ a ∈ t.arcs, a.startAngle = ((data.take a.index).map (App.pieAngle data.sum)).sum) ∧
        (∃ e, t.legend[i]? = some e ∧ e.value = data[i] ∧
          e.pct = App.piePct data.sum data[i]) := by
  intro labels data i hlen hi hpos hpct
  refine ⟨_, App.renderPieCore_ok labels data hlen.le, ?_, ?_, ?_⟩
  · intro a ha hai
    obtain ⟨k, hk, hidx, hpk, _, _⟩ := App.pieArcsGo_mem data.sum _ data 0 0 a ha
    rw [hai] at hidx
    have hki : k = i := by omega
    subst hki
    exact hpk hpct
  · intro a ha
    obtain ⟨k, hk, hidx, _, hstart, _⟩ := App.pieArcsGo_mem data.sum _ data 0 0 a ha
    rw [hstart, hidx]
    simp
  · have hval := App.legendPure_map_value (vibrantPalette.take data.length) data.sum data labels 0 (by omega)
    have hpctm := App.legendPure_map_pct (vibrantPalette.take data.length) data.sum data labels 0 (by omega)
    rw [List.drop_zero] at hval hpctm
    have h1 : ((App.legendPure (vibrantPalette.take data.length) data.sum data 0 labels).map
        App.LegendEntry.value)[i]? = some data[i] := by
      rw [hval, List.getElem?_eq_getElem hi]
    rw [List.getElem?_map] at h1
    obtain ⟨e, he, hev⟩ := Option.map_eq_some'.1 h1
    have h2 : ((App.legendPure (vibrantPalette.take data.length) data.sum data 0 labels).map
        App.LegendEntry.pct)[i]? = some (App.piePct data.sum data[i]) := by
      rw [hpctm, List.getElem?_map, List.getElem?_eq_getElem hi, Option.map_some']
    rw [List.getElem?_map, he, Option.map_some'] at h2
    exact ⟨e, he, hev, Option.some.inj h2⟩

/-- Claim C8: for a pie/doughnut specification with numeric series and
positive total, the slice angles computed by the `App.js` core sum to
exactly 360 degrees and the legend percentages sum to exactly 100. -/
theorem C8_theorem :
    ∀ (labels : List String) (data : List ℚ),
      labels.length = data.length → 0 < data.sum →
      (data.map (App.pieAngle data.sum)).sum = 360 ∧
      ∃ t, App.renderPieCore labels data = .ok t ∧
        (t.legend.map App.LegendEntry.pct).sum = 100 := by
  intro labels data hlen hpos
  have hT : data.sum ≠ 0 := ne_of_gt hpos
  constructor
  · have h1 : data.map (App.pieAngle data.sum) = data.map (fun v => v * (360 / data.sum)) :=
      List.map_congr_left (fun v _ => by rw [App.pieAngle, App.piePct, if_pos hpos]; ring)
    rw [h1, List.sum_map_mul_right, List.map_id', mul_comm]
    exact div_mul_cancel₀ 360 hT
  · refine ⟨_, App.renderPieCore_ok labels data hlen.le, ?_⟩
    have hpctm := App.legendPure_map_pct (vibrantPalette.take data.length) data.sum data labels 0 (by omega)
    rw [List.drop_zero] at hpctm
    rw [hpctm]
    have h1 : data.map (App.piePct data.sum) = data.map (fun v => v * (100 / data.sum)) :=
      List.map_congr_left (fun v _ => by rw [App.piePct, if_pos hpos]; ring)
    rw [h1, List.sum_map_mul_right, List.map_id', mul_comm]
    exact div_mul_cancel₀ 100 hT

/-- Claim C9: when the chart payload is absent or lacks a `data` field, both
renderers return nothing (an empty result) for every chart type, instead of
raising or producing a partial tree. -/
theorem C9_theorem :
    (∀ now, App.ChartDisplay none now = .ok none) ∧
    (∀ (cd : ChartData) now, cd.data = none → App.ChartDisplay (some cd) now = .ok none) ∧
    (∀ now, RI.ChartDisplay none now = none) ∧
    (∀ (cd : ChartData) now, cd.data = none → RI.ChartDisplay (some cd) now = none) := by
  refine ⟨fun now => rfl, fun cd now h => ?_, fun now => rfl, fun cd now h => ?_⟩
  · simp only [App.ChartDisplay, h]
  · simp only [RI.ChartDisplay, h]

/-- Claim C10: two payloads agreeing on type, labels, options and the first
dataset produce identical output from both renderers, whatever their later
datasets; the output depends only on `datasets[0]` (taken as the empty
series when absent). -/
theorem C10_theorem :
    ∀ (ty optT : Option String) (labels : List String) (ds1 ds2 : List Dataset) (now : String),
      ds1.head? = ds2.head? →
      App.ChartDisplay (some ⟨ty, some ⟨labels, ds1⟩, optT⟩) now =
        App.ChartDisplay (some ⟨ty, some ⟨labels, ds2⟩, optT⟩) now ∧
      RI.ChartDisplay (some ⟨ty, some ⟨labels, ds1⟩, optT⟩) now =
        RI.ChartDisplay (some ⟨ty, some ⟨labels, ds2⟩, optT⟩) now := by
  intro ty optT labels ds1 ds2 now h
  have he : effectiveSeries ds1 = effectiveSeries ds2 := by
    rw [effectiveSeries, effectiveSeries, h]
  constructor
  · simp only [App.ChartDisplay, he]
  · simp only [RI.ChartDisplay, he]

/-- Claim C1 (amended): after erasing the footer's generated-at timestamp,
two calls to either renderer at different times produce identical
instruction trees — every other part of the output depends only on the
input specification. -/
theorem C1_amended :
    ∀ (cd : Option ChartData) (now1 now2 : String),
      (App.ChartDisplay cd now1).map (Option.map App.stripTime) =
        (App.ChartDisplay cd now2).map (Option.map App.stripTime) ∧
      (RI.ChartDisplay cd now1).map RI.stripTime = (RI.ChartDisplay cd now2).map RI.stripTime := by
  intro cd now1 now2
  rcases cd with _ | ⟨ty, bd, opt⟩
  · exact ⟨rfl, rfl⟩
  rcases bd with _ | body
  · exact ⟨rfl, rfl⟩
  constructor
  · simp only [App.ChartDisplay]
    cases hb : App.bodyFor (strOrDefault ty "bar") (jsMaxList (effectiveSeries body.datasets))
        body.labels (effectiveSeries body.datasets) with
    | error e => simp [hb]
    | ok b => simp [hb, App.stripTime, Except.map]
  · rfl

/-- Claim C4 (amended): the composer performs no length validation and never
produces a `ValidationError` tree; a pie or doughnut payload of `App.js`
with more labels than series entries throws the legend's `TypeError`
(`undefined.toLocaleString()`) instead. -/
theorem C4_amended : ∀ (optT : Option String) (labels : List String) (ds : List Dataset) (now : String),
    (effectiveSeries ds).length < labels.length →
    App.ChartDisplay (some ⟨some "pie", some ⟨labels, ds⟩, optT⟩) now = .error .typeError ∧
    App.ChartDisplay (some ⟨some "doughnut", some ⟨labels, ds⟩, optT⟩) now = .error .typeError := by
  intro optT labels ds now h
  have herr : App.renderPieCore labels (effectiveSeries ds) = .error .typeError := by
    rw [App.renderPieCore, App.pieLegend_err _ _ _ labels 0 (by omega) (by omega)]
  constructor <;> simp [App.ChartDisplay, App.bodyFor, strOrDefault, herr]

/-- Claim C4 counterexample: the pie payload with labels `["A", "B"]` and
series `[1]` makes `App.js`'s `ChartDisplay` throw a `TypeError`, rather
than return an empty-chart tree annotated with a validation error. -/
theorem C4_counterexample :
    App.ChartDisplay (some ⟨some "pie", some ⟨["A", "B"], [⟨some [1]⟩]⟩, none⟩) "t" =
      .error .typeError := rfl

/-- Claim C2: with labels and series of equal length the `App.js` renderer
never raises, whatever the chart type (the `ResponseInterface.jsx` renderer
is total by construction); the empty doughnut specification yields an empty
render tree with `dataPointCount = 0` and no error from both renderers. -/
theorem C2_theorem :
    (∀ (ty optT : Option String) (labels : List String) (ds : List Dataset) (now : String),
        labels.length = (effectiveSeries ds).length →
        ∃ r, App.ChartDisplay (some ⟨ty, some ⟨labels, ds⟩, optT⟩) now = .ok r) ∧
    (∀ now, App.ChartDisplay (some ⟨some "doughnut", some ⟨[], [⟨some []⟩]⟩, none⟩) now =
        .ok (some ⟨"Analytics Chart", "doughnut", 0, .doughnut ⟨[], 0, []⟩, now⟩)) ∧
    (∀ now, RI.ChartDisplay (some ⟨some "doughnut", some ⟨[], [⟨some []⟩]⟩, none⟩) now =
        some ⟨"Analytics Chart", "doughnut", 0, .doughnut ⟨[], 0, []⟩, now⟩) := by
  refine ⟨?_, fun now => rfl, fun now => rfl⟩
  intro ty optT labels ds now h
  obtain ⟨b, hb⟩ := App.bodyFor_ok (strOrDefault ty "bar") (jsMaxList (effectiveSeries ds))
    labels (effectiveSeries ds) (le_of_eq h)
  refine ⟨some ⟨strOrDefault optT "Analytics Chart", strOrDefault ty "bar",
    (effectiveSeries ds).length, b, now⟩, ?_⟩
  simp only [App.ChartDisplay, hb]

/-- Claim C1 counterexample: the same bar payload rendered at `10:00:00` and
at `10:00:01` produces different instruction trees, because the footer
stamps `new Date().toLocaleTimeString()`; so the output does not depend only
on the specification. -/
theorem C1_counterexample :
    App.ChartDisplay (some ⟨some "bar", some ⟨[], [⟨some []⟩]⟩, none⟩) "10:00:00" ≠
      App.ChartDisplay (some ⟨some "bar", some ⟨[], [⟨some []⟩]⟩, none⟩) "10:00:01" := by
  simp [App.ChartDisplay, App.bodyFor, strOrDefault, effectiveSeries]

/-- Witness for C2 at a concrete pie payload with matching lengths. -/
theorem C2_witness :
    ∃ r, App.ChartDisplay (some ⟨some "pie", some ⟨["A"], [⟨some [25]⟩]⟩, none⟩) "t" = .ok r :=
  C2_theorem.1 (some "pie") none ["A"] [⟨some [25]⟩] "t" rfl

/-- Witness for C3 (amended) at the all-zero series `[0, 0]`. -/
theorem C3_witness :
    (∃ t, App.renderPieCore ["A", "B"] [0, 0] = .ok t ∧ t.arcs = [] ∧
      (∀ e ∈ t.legend, e.pct = 0)) ∧
    (∀ v ∈ [(0 : ℚ), 0], App.pieAngle ([(0 : ℚ), 0]).sum v = 0 ∧
      App.piePct ([(0 : ℚ), 0]).sum v = 0) ∧
    (∀ e ∈ (RI.renderPieCore ["A", "B"] [0, 0]).legend, ∀ q : ℚ, e.pct ≠ .num q) :=
  C3_amended ["A", "B"] [0, 0] rfl (by simp)

/-- Witness for C4 (amended) at a two-label, one-entry payload. -/
theorem C4_witness :
    App.ChartDisplay (some ⟨some "pie", some ⟨["A", "B"], [⟨some [1]⟩]⟩, none⟩) "t" =
      .error .typeError ∧
    App.ChartDisplay (some ⟨some "doughnut", some ⟨["A", "B"], [⟨some [1]⟩]⟩, none⟩) "t" =
      .error .typeError :=
  C4_amended none ["A", "B"] [⟨some [1]⟩] "t" (by decide)

/-- Witness for C5 (amended) at series `[0, 10]`, bar 1. -/
theorem C5_witness :
    ((RI.renderBarChart (jsMaxList [0, 10]) ["A", "B"] [0, 10]).map BarRow.width)[1]? =
      some (.num (max ((10 : ℚ) / 10 * 100) 8)) ∧
    ((App.renderBarChart (jsMaxList [0, 10]) ["A", "B"] [0, 10]).map BarRow.width)[1]? =
      some (.num ((10 : ℚ) / 10 * 100)) :=
  (C5_amended ["A", "B"] [0, 10] 1 10 rfl (by decide)
    (by simp [jsMaxList, jsMax, jsLt]) 10 rfl).1 (by norm_num)

/-- Witness for C6 (amended) at a 13-character label with budget 12. -/
theorem C6_witness :
    truncateLabel 12 "abcdefghijklm" = String.mk ("abcdefghijklm".toList.take 12) ++ "..." :=
  (C6_amended [] []).2.2.1 "abcdefghijklm" 12 (by decide)

/-- Witness for C7 at series `[1, 1000]`, whose first entry's share is below
the threshold. -/
theorem C7_witness :
    ∃ t, App.renderPieCore ["A", "B"] [1, 1000] = .ok t ∧
      (∀ a ∈ t.arcs, a.index ≠ 0) ∧
      (∀ a ∈ t.arcs, a.startAngle =
        ((([(1 : ℚ), 1000]).take a.index).map (App.pieAngle ([(1 : ℚ), 1000]).sum)).sum) ∧
      (∃ e, t.legend[0]? = some e ∧ e.value = ([(1 : ℚ), 1000])[0] ∧
        e.pct = App.piePct ([(1 : ℚ), 1000]).sum ([(1 : ℚ), 1000])[0]) :=
  C7_theorem ["A", "B"] [1, 1000] 0 rfl (by decide)
    (by norm_num) (by norm_num [App.piePct])

/-- Witness for C8 at the four-way equal split `[25, 25, 25, 25]`. -/
theorem C8_witness :
    (([(25 : ℚ), 25, 25, 25]).map (App.pieAngle ([(25 : ℚ), 25, 25, 25]).sum)).sum = 360 ∧
    ∃ t, App.renderPieCore ["A", "B", "C", "D"] [25, 25, 25, 25] = .ok t ∧
      (t.legend.map App.LegendEntry.pct).sum = 100 :=
  C8_theorem ["A", "B", "C", "D"] [25, 25, 25, 25] rfl (by norm_num)

/-- Witness for C9 at a payload with a type tag but no data field. -/
theorem C9_witness :
    App.ChartDisplay (some ⟨some "line", none, none⟩) "t" = .ok none ∧
    RI.ChartDisplay (some ⟨some "line", none, none⟩) "t" = none :=
  ⟨C9_theorem.2.1 ⟨some "line", none, none⟩ "t" rfl,
   C9_theorem.2.2.2 ⟨some "line", none, none⟩ "t" rfl⟩

/-- Witness for C10 at two payloads differing only in a second dataset. -/
theorem C10_witness :
    App.ChartDisplay (some ⟨some "bar", some ⟨["A"], [⟨some [1]⟩, ⟨some [2, 3]⟩]⟩, none⟩) "t" =
      App.ChartDisplay (some ⟨some "bar", some ⟨["A"], [⟨some [1]⟩]⟩, none⟩) "t" ∧
    RI.ChartDisplay (some ⟨some "bar", some ⟨["A"], [⟨some [1]⟩, ⟨some [2, 3]⟩]⟩, none⟩) "t" =
      RI.ChartDisplay (some ⟨some "bar", some ⟨["A"], [⟨some [1]⟩]⟩, none⟩) "t" :=
  C10_theorem (some "bar") none ["A"] [⟨some [1]⟩, ⟨some [2, 3]⟩] [⟨some [1]⟩] "t" rfl
